import Mathlib

/-!
Shallow embedding of the nilaway trigger algebra
(`src/annotation/produce_trigger.go` and `src/annotation/consume_trigger.go`).

Producers and consumers are closed families of Go structs embedding one of a
few base structs; they are embedded here as inductives plus a `base`
classification mirroring the Go struct embedding.  Behavioural methods
(`CheckProduce`, `CheckConsume`, `NeedsGuardMatch`, `SetNeedsGuard`, `Kind`,
`UnderlyingSite`, `Prestring`) are translated arm by arm from the source.
Go panics in `Prestring` (type assertions on an unexpected key variant) are
modelled by `Option.none`.
-/

/-- Modelled from the spec: an opaque `*types.Func` object.  Only identity and
the declared name (used by prestrings) are relevant to the trigger algebra. -/
structure FuncObj where
  id : Nat
  name : String
deriving DecidableEq

/-- Modelled from the spec: an opaque `*types.Var` object. -/
structure VarObj where
  id : Nat
  name : String
deriving DecidableEq

/-- Modelled from the spec: an opaque field declaration object. -/
structure FieldObj where
  id : Nat
  name : String
deriving DecidableEq

/-- Modelled from the spec: an opaque type declaration object
(`TypeNameAnnotationKey.TypeDecl`). -/
structure TypeObj where
  id : Nat
  name : String
deriving DecidableEq

/-- Modelled from the spec: the annotation-site `Key` variants (spec section 3,
"Site Key"); the key types live outside `src/`.  Two keys are equal iff all
discriminated fields are equal; call-site variants carry an extra location. -/
inductive Key where
  | paramKey (funcDecl : FuncObj) (paramNum : Nat) (paramName : String)
  | callSiteParamKey (funcDecl : FuncObj) (paramNum : Nat) (paramName : String) (location : String)
  | retKey (funcDecl : FuncObj) (retNum : Nat)
  | callSiteRetKey (funcDecl : FuncObj) (retNum : Nat) (location : String)
  | recvKey (funcDecl : FuncObj)
  | fieldKey (fieldDecl : FieldObj)
  | escapeFieldKey (fieldDecl : FieldObj)
  | paramFieldKey (funcDecl : FuncObj) (paramNum : Nat) (fieldDecl : FieldObj)
  | retFieldKey (funcDecl : FuncObj) (retNum : Nat) (fieldDecl : FieldObj)
  | globalVarKey (varDecl : VarObj)
  | typeNameKey (typeDecl : TypeObj)
deriving DecidableEq

/-- Modelled from the spec: a per-site nilability fact
`{shallow: Nilable|Nonnil, deep: Nilable|Nonnil}`, with the field names used
by the source (`ann.IsNilable`, `ann.IsDeepNilable`). -/
structure Val where
  IsNilable : Bool
  IsDeepNilable : Bool
deriving DecidableEq

/-- Modelled from the spec: the annotation `Map` from site keys to nilability
facts, read-only to the core. -/
def Map : Type := Key → Option Val

/-- Modelled from the spec: `Key.Lookup` returns the fact stored for the key,
`none` when the key has no entry (in Go, the `(ann, ok)` form with `ok == false`). -/
def Key.Lookup (k : Key) (m : Map) : Option Val := m k

/-- Modelled from the spec: a `GuardNonce` is an opaque unique identifier per
check site. -/
abbrev GuardNonce : Type := Nat

/-- Modelled from the spec: `util.GuardNonceSet` is a finite set of nonces
with copy, intersection, add, and (structural) equality. -/
abbrev GuardNonceSet : Type := Finset GuardNonce

/-- Modelled from the spec: `Copy` returns a set equal to the receiver
(immutably modelled, copying is the identity on values). -/
def GuardNonceSet.Copy (s : GuardNonceSet) : GuardNonceSet := s

/-- Modelled from the spec: `Add(guards...)` extends the set with all the
given nonces. -/
def GuardNonceSet.Add (s : GuardNonceSet) (guards : List GuardNonce) : GuardNonceSet :=
  s ∪ guards.toFinset

/-- Modelled from the spec: `Intersection` of two guard sets. -/
def GuardNonceSet.Intersection (s t : GuardNonceSet) : GuardNonceSet := s ∩ t

/-- Modelled from the spec: structural equality of guard sets. -/
def GuardNonceSet.SetEq (s t : GuardNonceSet) : Bool := decide (s = t)

/-- The report-only expression reference (`ast.Expr`); pointer identity is
modelled by a numeric id. -/
abbrev ExprRef : Type := Nat

/-- TriggerKind from the source: the four-valued classification
`Always`, `Never`, `Conditional`, `DeepConditional`. -/
inductive TriggerKind where
  | Always
  | Never
  | Conditional
  | DeepConditional
deriving DecidableEq

/-- Embeds `types.Object` selectors usable by `FldAccess.Sel`
(a `*types.Var` or a `*types.Func`; anything else panics in `Prestring`). -/
inductive SelObj where
  | varSel (v : VarObj)
  | funcSel (f : FuncObj)
deriving DecidableEq

/-- The closed family `ProducingAnnotationTrigger` from
`produce_trigger.go`, one constructor per Go struct, carrying exactly the
fields of that struct (embedded base keys included). -/
inductive ProducingAnnotationTrigger where
  | exprOkCheck
  | rangeIndexAssignment
  | positiveNilCheck
  | negativeNilCheck
  | okReadReflCheck
  | rangeOver
  | constNil
  | unassignedFld
  | noVarAssign (varObj : VarObj)
  | blankVarReturn
  | funcParam (ann : Key)
  | methodRecv (ann : Key) (varDecl : VarObj)
  | methodRecvDeep (ann : Key) (varDecl : VarObj)
  | variadicFuncParam (varDecl : VarObj)
  | trustedFuncNilable
  | trustedFuncNonnil
  | fldRead (ann : Key)
  | paramFldRead (ann : Key)
  | fldReturn (ann : Key)
  | funcReturn (ann : Key) (guarded : Bool)
  | methodReturn (ann : Key)
  | methodResultReachesInterface (ann : Key) (interfaceMethod implementingMethod : FuncObj)
  | interfaceParamReachesImplementation (ann : Key) (interfaceMethod implementingMethod : FuncObj)
  | globalVarRead (ann : Key)
  | mapRead (ann : Key) (needsGuard : Bool)
  | arrayRead (ann : Key)
  | sliceRead (ann : Key)
  | ptrRead (ann : Key)
  | chanRecv (ann : Key) (needsGuard : Bool)
  | funcParamDeep (ann : Key) (needsGuard : Bool)
  | variadicFuncParamDeep (ann : Key) (needsGuard : Bool)
  | funcReturnDeep (ann : Key) (needsGuard : Bool)
  | fldReadDeep (ann : Key) (needsGuard : Bool)
  | localVarReadDeep (needsGuard : Bool) (readVar : VarObj)
  | globalVarReadDeep (ann : Key) (needsGuard : Bool)
  | guardMissing (oldAnno : ProducingAnnotationTrigger)
deriving DecidableEq

/-- The four producer base structs every producing trigger embeds:
`TriggerIfNilable`, `TriggerIfDeepNilable`, `ProduceTriggerTautology`,
`ProduceTriggerNever`. -/
inductive ProducerBase where
  | ifNilable (ann : Key)
  | ifDeepNilable (ann : Key)
  | tautology
  | never
deriving DecidableEq

/-- Which base struct each producing trigger embeds, read off the Go struct
declarations.  Note `VariadicFuncParamDeep` embeds `TriggerIfNilable`
(shallow) and `LocalVarReadDeep` embeds `ProduceTriggerNever`, and
`GuardMissing` embeds `ProduceTriggerTautology`. -/
def ProducingAnnotationTrigger.base : ProducingAnnotationTrigger → ProducerBase
  | .exprOkCheck => .never
  | .rangeIndexAssignment => .never
  | .positiveNilCheck => .tautology
  | .negativeNilCheck => .never
  | .okReadReflCheck => .never
  | .rangeOver => .never
  | .constNil => .tautology
  | .unassignedFld => .tautology
  | .noVarAssign _ => .tautology
  | .blankVarReturn => .tautology
  | .funcParam ann => .ifNilable ann
  | .methodRecv ann _ => .ifNilable ann
  | .methodRecvDeep ann _ => .ifDeepNilable ann
  | .variadicFuncParam _ => .tautology
  | .trustedFuncNilable => .tautology
  | .trustedFuncNonnil => .never
  | .fldRead ann => .ifNilable ann
  | .paramFldRead ann => .ifNilable ann
  | .fldReturn ann => .ifNilable ann
  | .funcReturn ann _ => .ifNilable ann
  | .methodReturn ann => .ifNilable ann
  | .methodResultReachesInterface ann _ _ => .ifNilable ann
  | .interfaceParamReachesImplementation ann _ _ => .ifNilable ann
  | .globalVarRead ann => .ifNilable ann
  | .mapRead ann _ => .ifDeepNilable ann
  | .arrayRead ann => .ifDeepNilable ann
  | .sliceRead ann => .ifDeepNilable ann
  | .ptrRead ann => .ifDeepNilable ann
  | .chanRecv ann _ => .ifDeepNilable ann
  | .funcParamDeep ann _ => .ifDeepNilable ann
  | .variadicFuncParamDeep ann _ => .ifNilable ann
  | .funcReturnDeep ann _ => .ifDeepNilable ann
  | .fldReadDeep ann _ => .ifDeepNilable ann
  | .localVarReadDeep _ _ => .never
  | .globalVarReadDeep ann _ => .ifDeepNilable ann
  | .guardMissing _ => .tautology

/-- `TriggerIfNilable.CheckProduce`: true iff the underlying annotation is
present in the passed map and nilable (`ok && ann.IsNilable`). -/
def checkIfNilable (ann : Key) (annMap : Map) : Bool :=
  match ann.Lookup annMap with
  | some v => v.IsNilable
  | none => false

/-- `TriggerIfDeepNilable.CheckProduce`: true iff the underlying annotation is
present in the passed map and deeply nilable. -/
def checkIfDeepNilable (ann : Key) (annMap : Map) : Bool :=
  match ann.Lookup annMap with
  | some v => v.IsDeepNilable
  | none => false

/-- `CheckProduce` dispatched through the embedded base:
`ProduceTriggerTautology` returns true, `ProduceTriggerNever` returns false,
the conditional bases consult the map. -/
def ProducingAnnotationTrigger.CheckProduce (t : ProducingAnnotationTrigger) (annMap : Map) : Bool :=
  match t.base with
  | .ifNilable ann => checkIfNilable ann annMap
  | .ifDeepNilable ann => checkIfDeepNilable ann annMap
  | .tautology => true
  | .never => false

/-- `NeedsGuardMatch`: false from every base, overridden by the structs that
carry a guard field (`FuncReturn.Guarded` and the `NeedsGuard` fields). -/
def ProducingAnnotationTrigger.NeedsGuardMatch : ProducingAnnotationTrigger → Bool
  | .funcReturn _ guarded => guarded
  | .mapRead _ needsGuard => needsGuard
  | .chanRecv _ needsGuard => needsGuard
  | .funcParamDeep _ needsGuard => needsGuard
  | .variadicFuncParamDeep _ needsGuard => needsGuard
  | .funcReturnDeep _ needsGuard => needsGuard
  | .fldReadDeep _ needsGuard => needsGuard
  | .localVarReadDeep needsGuard _ => needsGuard
  | .globalVarReadDeep _ needsGuard => needsGuard
  | _ => false

/-- `SetNeedsGuard`: a noop from every base, overridden by the same structs
that override `NeedsGuardMatch` to write their guard field. -/
def ProducingAnnotationTrigger.SetNeedsGuard : ProducingAnnotationTrigger → Bool → ProducingAnnotationTrigger
  | .funcReturn ann _, b => .funcReturn ann b
  | .mapRead ann _, b => .mapRead ann b
  | .chanRecv ann _, b => .chanRecv ann b
  | .funcParamDeep ann _, b => .funcParamDeep ann b
  | .variadicFuncParamDeep ann _, b => .variadicFuncParamDeep ann b
  | .funcReturnDeep ann _, b => .funcReturnDeep ann b
  | .fldReadDeep ann _, b => .fldReadDeep ann b
  | .localVarReadDeep _ v, b => .localVarReadDeep b v
  | .globalVarReadDeep ann _, b => .globalVarReadDeep ann b
  | t, _ => t

/-- The producer variants whose `SetNeedsGuard` overrides the base noop
(exactly the structs carrying a mutable guard field in the source). -/
def SupportsGuardMutation : ProducingAnnotationTrigger → Bool
  | .funcReturn _ _ => true
  | .mapRead _ _ => true
  | .chanRecv _ _ => true
  | .funcParamDeep _ _ => true
  | .variadicFuncParamDeep _ _ => true
  | .funcReturnDeep _ _ => true
  | .fldReadDeep _ _ => true
  | .localVarReadDeep _ _ => true
  | .globalVarReadDeep _ _ => true
  | _ => false

/-- `Kind` dispatched through the embedded base. -/
def ProducingAnnotationTrigger.Kind (t : ProducingAnnotationTrigger) : TriggerKind :=
  match t.base with
  | .ifNilable _ => .Conditional
  | .ifDeepNilable _ => .DeepConditional
  | .tautology => .Always
  | .never => .Never

/-- `UnderlyingSite` dispatched through the embedded base: the key for the
conditional bases, `nil` (here `none`) for tautology and never. -/
def ProducingAnnotationTrigger.UnderlyingSite (t : ProducingAnnotationTrigger) : Option Key :=
  match t.base with
  | .ifNilable ann => some ann
  | .ifDeepNilable ann => some ann
  | .tautology => none
  | .never => none

/-- `Prestring` of a producing trigger, as the text of the `ErrorMessage` it
returns; `none` models the Go panic on an unexpected key variant. -/
def ProducingAnnotationTrigger.Prestring : ProducingAnnotationTrigger → Option String
  | .exprOkCheck => some ("is not nilable")
  | .rangeIndexAssignment => some ("is not nilable")
  | .positiveNilCheck => some ("determined nil via conditional check")
  | .negativeNilCheck => some ("determined nonnil via conditional check")
  | .okReadReflCheck => some ("is not nilable")
  | .rangeOver => some ("is not nilable")
  | .constNil => some ("literal `nil`")
  | .unassignedFld => some ("uninitialized")
  | .noVarAssign varObj => some ("unassigned variable `" ++ varObj.name ++ "`")
  | .blankVarReturn => some ("return via a blank variable `_`")
  | .funcParam ann =>
    match ann with
    | .paramKey _ _ paramName => some ("function parameter `" ++ paramName ++ "`")
    | .callSiteParamKey _ _ paramName location =>
      some ("function parameter `" ++ paramName ++ "` at " ++ location)
    | _ => none
  | .methodRecv _ varDecl => some ("read by method receiver `" ++ varDecl.name ++ "`")
  | .methodRecvDeep _ varDecl => some ("deep read by method receiver `" ++ varDecl.name ++ "`")
  | .variadicFuncParam varDecl =>
    some ("read directly from variadic parameter `" ++ varDecl.name ++ "`")
  | .trustedFuncNilable => some ("determined to be nilable by a trusted function")
  | .trustedFuncNonnil => some ("determined to be nonnil by a trusted function")
  | .fldRead ann =>
    match ann with
    | .escapeFieldKey fieldDecl => some ("field `" ++ fieldDecl.name ++ "`")
    | .fieldKey fieldDecl => some ("field `" ++ fieldDecl.name ++ "`")
    | _ => none
  | .paramFldRead ann =>
    match ann with
    | .paramFieldKey _ _ fieldDecl => some ("field `" ++ fieldDecl.name ++ "`")
    | _ => none
  | .fldReturn ann =>
    match ann with
    | .retFieldKey funcDecl retNum fieldDecl =>
      some ("field `" ++ fieldDecl.name ++ "` of result " ++ toString retNum ++
        " of `" ++ funcDecl.name ++ "()`")
    | _ => none
  | .funcReturn ann _ =>
    match ann with
    | .retKey funcDecl retNum =>
      some ("result " ++ toString retNum ++ " of `" ++ funcDecl.name ++ "()`")
    | .callSiteRetKey funcDecl retNum location =>
      some ("result " ++ toString retNum ++ " of `" ++ funcDecl.name ++ "()` at " ++ location)
    | _ => none
  | .methodReturn ann =>
    match ann with
    | .retKey funcDecl retNum =>
      some ("result " ++ toString retNum ++ " of `" ++ funcDecl.name ++ "()`")
    | _ => none
  | .methodResultReachesInterface _ _ _ => some ("")
  | .interfaceParamReachesImplementation _ _ _ => some ("")
  | .globalVarRead ann =>
    match ann with
    | .globalVarKey varDecl => some ("global variable `" ++ varDecl.name ++ "`")
    | _ => none
  | .mapRead ann _ =>
    match ann with
    | .typeNameKey typeDecl => some ("index of a map of type `" ++ typeDecl.name ++ "`")
    | _ => none
  | .arrayRead ann =>
    match ann with
    | .typeNameKey typeDecl => some ("index of an array of type `" ++ typeDecl.name ++ "`")
    | _ => none
  | .sliceRead ann =>
    match ann with
    | .typeNameKey typeDecl => some ("index of a slice of type `" ++ typeDecl.name ++ "`")
    | _ => none
  | .ptrRead ann =>
    match ann with
    | .typeNameKey typeDecl => some ("value of a pointer of type `" ++ typeDecl.name ++ "`")
    | _ => none
  | .chanRecv ann _ =>
    match ann with
    | .typeNameKey typeDecl => some ("received from a channel of type `" ++ typeDecl.name ++ "`")
    | _ => none
  | .funcParamDeep ann _ =>
    match ann with
    | .paramKey _ _ paramName => some ("deep read from parameter `" ++ paramName ++ "`")
    | _ => none
  | .variadicFuncParamDeep ann _ =>
    match ann with
    | .paramKey _ _ paramName => some ("index of variadic parameter `" ++ paramName ++ "`")
    | _ => none
  | .funcReturnDeep ann _ =>
    match ann with
    | .retKey funcDecl retNum =>
      some ("deep read from result " ++ toString retNum ++ " of `" ++ funcDecl.name ++ "()`")
    | _ => none
  | .fldReadDeep ann _ =>
    match ann with
    | .fieldKey fieldDecl => some ("deep read from field `" ++ fieldDecl.name ++ "`")
    | _ => none
  | .localVarReadDeep _ readVar => some ("deep read from variable `" ++ readVar.name ++ "`")
  | .globalVarReadDeep ann _ =>
    match ann with
    | .globalVarKey varDecl => some ("deep read from global variable `" ++ varDecl.name ++ "`")
    | _ => none
  | .guardMissing oldAnno =>
    match oldAnno.Prestring with
    | some s => some (s ++ " lacking guarding;")
    | none => none

/-- A `MapRead` built by a Go composite literal that does not mention the
`NeedsGuard` field: the boolean field takes the Go zero value, `false`. -/
def MapReadZeroValue (ann : Key) : ProducingAnnotationTrigger :=
  .mapRead ann false

/-- The closed family `ConsumingAnnotationTrigger` from
`consume_trigger.go`, one constructor per Go struct, carrying the fields of
that struct (the embedded base key, plus payload fields that participate in
structural equality: `Sel`, `IsPassed`, `IsNamedReturn`, `RetStmt`,
affiliation methods, local variables). -/
inductive ConsumingAnnotationTrigger where
  | ptrLoad
  | mapAccess
  | mapWrittenTo
  | sliceAccess
  | fldAccess (sel : SelObj)
  | useAsErrorResult (ann : Key) (retStmt : Nat) (isNamedReturn : Bool)
  | fldAssign (ann : Key)
  | argFldPass (ann : Key) (isPassed : Bool)
  | globalVarAssign (ann : Key)
  | argPass (ann : Key)
  | recvPass (ann : Key)
  | interfaceResultFromImplementation (ann : Key) (interfaceMethod implementingMethod : FuncObj)
  | methodParamFromInterface (ann : Key) (interfaceMethod implementingMethod : FuncObj)
  | useAsReturn (ann : Key) (isNamedReturn : Bool) (retStmt : Nat)
  | useAsFldOfReturn (ann : Key)
  | sliceAssign (ann : Key)
  | arrayAssign (ann : Key)
  | ptrAssign (ann : Key)
  | mapAssign (ann : Key)
  | deepAssignPrimitive
  | paramAssignDeep (ann : Key)
  | funcRetAssignDeep (ann : Key)
  | variadicParamAssignDeep (ann : Key)
  | fieldAssignDeep (ann : Key)
  | globalVarAssignDeep (ann : Key)
  | chanAccess
  | localVarAssignDeep (localVar : VarObj)
  | chanSend (ann : Key)
  | fldEscape (ann : Key)
  | useAsNonErrorRetDependentOnErrorRetNilability (ann : Key) (isNamedReturn : Bool) (retStmt : Nat)
  | useAsErrorRetWithNilabilityUnknown (ann : Key) (isNamedReturn : Bool) (retStmt : Nat)
deriving DecidableEq

/-- The three consumer base structs every consuming trigger embeds:
`TriggerIfNonNil`, `TriggerIfDeepNonNil`, `ConsumeTriggerTautology`. -/
inductive ConsumerBase where
  | ifNonNil (ann : Key)
  | ifDeepNonNil (ann : Key)
  | tautology
deriving DecidableEq

/-- Which base struct each consuming trigger embeds, read off the Go struct
declarations.  Note `VariadicParamAssignDeep` embeds `TriggerIfNonNil`
(shallow) and `LocalVarAssignDeep` embeds `ConsumeTriggerTautology`. -/
def ConsumingAnnotationTrigger.base : ConsumingAnnotationTrigger → ConsumerBase
  | .ptrLoad => .tautology
  | .mapAccess => .tautology
  | .mapWrittenTo => .tautology
  | .sliceAccess => .tautology
  | .fldAccess _ => .tautology
  | .useAsErrorResult ann _ _ => .ifNonNil ann
  | .fldAssign ann => .ifNonNil ann
  | .argFldPass ann _ => .ifNonNil ann
  | .globalVarAssign ann => .ifNonNil ann
  | .argPass ann => .ifNonNil ann
  | .recvPass ann => .ifNonNil ann
  | .interfaceResultFromImplementation ann _ _ => .ifNonNil ann
  | .methodParamFromInterface ann _ _ => .ifNonNil ann
  | .useAsReturn ann _ _ => .ifNonNil ann
  | .useAsFldOfReturn ann => .ifNonNil ann
  | .sliceAssign ann => .ifDeepNonNil ann
  | .arrayAssign ann => .ifDeepNonNil ann
  | .ptrAssign ann => .ifDeepNonNil ann
  | .mapAssign ann => .ifDeepNonNil ann
  | .deepAssignPrimitive => .tautology
  | .paramAssignDeep ann => .ifDeepNonNil ann
  | .funcRetAssignDeep ann => .ifDeepNonNil ann
  | .variadicParamAssignDeep ann => .ifNonNil ann
  | .fieldAssignDeep ann => .ifDeepNonNil ann
  | .globalVarAssignDeep ann => .ifDeepNonNil ann
  | .chanAccess => .tautology
  | .localVarAssignDeep _ => .tautology
  | .chanSend ann => .ifDeepNonNil ann
  | .fldEscape ann => .ifNonNil ann
  | .useAsNonErrorRetDependentOnErrorRetNilability ann _ _ => .ifNonNil ann
  | .useAsErrorRetWithNilabilityUnknown ann _ _ => .ifNonNil ann

/-- `TriggerIfNonNil.CheckConsume`: true iff the underlying annotation is
present in the passed map and nonnil (`ok && !ann.IsNilable`). -/
def checkIfNonNil (ann : Key) (annMap : Map) : Bool :=
  match ann.Lookup annMap with
  | some v => !v.IsNilable
  | none => false

/-- `TriggerIfDeepNonNil.CheckConsume`: true iff the underlying annotation is
present in the passed map and deeply nonnil. -/
def checkIfDeepNonNil (ann : Key) (annMap : Map) : Bool :=
  match ann.Lookup annMap with
  | some v => !v.IsDeepNilable
  | none => false

/-- `CheckConsume` dispatched through the embedded base:
`ConsumeTriggerTautology` returns true, the conditional bases consult the
map. -/
def ConsumingAnnotationTrigger.CheckConsume (t : ConsumingAnnotationTrigger) (annMap : Map) : Bool :=
  match t.base with
  | .ifNonNil ann => checkIfNonNil ann annMap
  | .ifDeepNonNil ann => checkIfDeepNonNil ann annMap
  | .tautology => true

/-- `Kind` dispatched through the embedded base. -/
def ConsumingAnnotationTrigger.Kind (t : ConsumingAnnotationTrigger) : TriggerKind :=
  match t.base with
  | .ifNonNil _ => .Conditional
  | .ifDeepNonNil _ => .DeepConditional
  | .tautology => .Always

/-- `UnderlyingSite` dispatched through the embedded base. -/
def ConsumingAnnotationTrigger.UnderlyingSite (t : ConsumingAnnotationTrigger) : Option Key :=
  match t.base with
  | .ifNonNil ann => some ann
  | .ifDeepNonNil ann => some ann
  | .tautology => none

/-- `ConsumeTrigger`: the paired consumer object
`{Annotation, Expr, Guards, GuardMatched}` from `consume_trigger.go`
(the Go field `Annotation` is named `Anno` here). -/
structure ConsumeTrigger where
  Anno : ConsumingAnnotationTrigger
  Expr : ExprRef
  Guards : GuardNonceSet
  GuardMatched : Bool
deriving DecidableEq

/-- `ConsumeTrigger.Eq`: structural comparison of the annotation
(`reflect.DeepEqual`), the expression (pointer equality), the guard set, and
the guard-matched flag. -/
def ConsumeTrigger.Eq (c c2 : ConsumeTrigger) : Bool :=
  decide (c.Anno = c2.Anno) && decide (c.Expr = c2.Expr) &&
    c.Guards.SetEq c2.Guards && decide (c.GuardMatched = c2.GuardMatched)

/-- The closure `addToOut` inside `MergeConsumeTriggerSlices`: scan `out`
for the first trigger with a `reflect.DeepEqual` annotation and equal
expression; if found, replace it in place with the intersection-of-guards /
conjunction-of-guardMatched merge, else append the trigger at the end. -/
def addToOut : List ConsumeTrigger → ConsumeTrigger → List ConsumeTrigger
  | [], trigger => [trigger]
  | outTrigger :: rest, trigger =>
    if outTrigger.Anno = trigger.Anno ∧ outTrigger.Expr = trigger.Expr then
      { Anno := outTrigger.Anno
        Expr := outTrigger.Expr
        Guards := outTrigger.Guards.Intersection trigger.Guards
        GuardMatched := outTrigger.GuardMatched && trigger.GuardMatched } :: rest
    else
      outTrigger :: addToOut rest trigger

/-- `MergeConsumeTriggerSlices`: fold `addToOut` over the left then the right
slice, starting from the empty output. -/
def MergeConsumeTriggerSlices (left right : List ConsumeTrigger) : List ConsumeTrigger :=
  (left ++ right).foldl addToOut []

/-- `ConsumeTriggerSliceAsGuarded`: rebuild every trigger with a copy of its
guard set extended by the given guards; the Go composite literal omits
`GuardMatched`, so it takes the zero value `false`. -/
def ConsumeTriggerSliceAsGuarded (slice : List ConsumeTrigger) (guards : List GuardNonce) :
    List ConsumeTrigger :=
  slice.map fun trigger =>
    { Anno := trigger.Anno
      Expr := trigger.Expr
      Guards := trigger.Guards.Copy.Add guards
      GuardMatched := false }

/-- `ConsumeTriggerSlicesEq`: false on length mismatch, else every left
element must have an `Eq`-equal element on the right. -/
def ConsumeTriggerSlicesEq (left right : List ConsumeTrigger) : Bool :=
  if left.length ≠ right.length then false
  else left.all fun l => right.any fun r => l.Eq r

/-- Two consume triggers are key-distinct when they do not agree on both the
annotation and the expression (the mergeability test of
`MergeConsumeTriggerSlices`, negated). -/
def DistinctAnnoExpr (a b : ConsumeTrigger) : Prop :=
  ¬ (a.Anno = b.Anno ∧ a.Expr = b.Expr)

/-! Derived lemmas and the claim theorems. -/
theorem ConsumeTrigger.Eq_iff_eq (c c2 : ConsumeTrigger) : c.Eq c2 = true ↔ c = c2 := by
  cases c; cases c2
  simp [ConsumeTrigger.Eq, GuardNonceSet.SetEq, and_assoc]

theorem ConsumeTrigger.Eq_false_iff (x y : ConsumeTrigger) : x.Eq y = false ↔ x ≠ y := by
  constructor
  · intro h hxy
    rw [(ConsumeTrigger.Eq_iff_eq x y).mpr hxy] at h
    cases h
  · intro h
    cases hb : x.Eq y
    · rfl
    · exact absurd ((ConsumeTrigger.Eq_iff_eq x y).mp hb) h

theorem pairwise_eqFalse_iff_nodup (a : List ConsumeTrigger) :
    (a.Pairwise fun x y => x.Eq y = false) ↔ a.Nodup :=
  ⟨fun h => h.imp fun hxy => (ConsumeTrigger.Eq_false_iff _ _).mp hxy,
   fun h => h.imp fun hxy => (ConsumeTrigger.Eq_false_iff _ _).mpr hxy⟩

theorem slicesEq_iff_perm (a b : List ConsumeTrigger) (ha : a.Nodup) :
    ConsumeTriggerSlicesEq a b = true ↔ a.Perm b := by
  constructor
  · intro h
    unfold ConsumeTriggerSlicesEq at h
    by_cases hl : a.length ≠ b.length
    · rw [if_pos hl] at h; cases h
    · rw [if_neg hl] at h
      simp only [List.all_eq_true, List.any_eq_true] at h
      have hsub : a ⊆ b := by
        intro l hl2
        obtain ⟨r, hr, he⟩ := h l hl2
        rwa [(ConsumeTrigger.Eq_iff_eq l r).mp he]
      have hsp := List.subperm_of_subset ha hsub
      exact hsp.perm_of_length_le (by omega)
  · intro h
    unfold ConsumeTriggerSlicesEq
    rw [if_neg (by simp [h.length_eq])]
    simp only [List.all_eq_true, List.any_eq_true]
    exact fun l hl2 => ⟨l, h.subset hl2, (ConsumeTrigger.Eq_iff_eq l l).mpr rfl⟩

theorem addToOut_of_forall_distinct (out : List ConsumeTrigger) (t : ConsumeTrigger)
    (h : ∀ u ∈ out, DistinctAnnoExpr u t) : addToOut out t = out ++ [t] := by
  induction out with
  | nil => rfl
  | cons u rest ih =>
    have hu : ¬ (u.Anno = t.Anno ∧ u.Expr = t.Expr) := h u (by simp)
    simp only [addToOut]
    rw [if_neg hu, ih fun v hv => h v (by simp [hv])]
    simp

theorem addToOut_mem_first (l2 : List ConsumeTrigger) (t : ConsumeTrigger) :
    ∀ l1 : List ConsumeTrigger, (∀ u ∈ l1, DistinctAnnoExpr u t) →
      addToOut (l1 ++ t :: l2) t = l1 ++ t :: l2 := by
  intro l1
  induction l1 with
  | nil =>
    intro _
    simp [addToOut, GuardNonceSet.Intersection]
  | cons u l1 ih =>
    intro h
    have hu : ¬ (u.Anno = t.Anno ∧ u.Expr = t.Expr) := h u (by simp)
    simp only [List.cons_append, addToOut]
    rw [if_neg hu]
    exact congrArg (fun l => u :: l) (ih fun v hv => h v (by simp [hv]))

theorem foldl_addToOut_append (s : List ConsumeTrigger) :
    ∀ acc : List ConsumeTrigger, (acc ++ s).Pairwise DistinctAnnoExpr →
      s.foldl addToOut acc = acc ++ s := by
  induction s with
  | nil => intro acc _; simp
  | cons t s ih =>
    intro acc h
    have h1 : ∀ u ∈ acc, DistinctAnnoExpr u t :=
      fun u hu => (List.pairwise_append.mp h).2.2 u hu t (by simp)
    rw [List.foldl_cons, addToOut_of_forall_distinct acc t h1]
    have h2 : ((acc ++ [t]) ++ s).Pairwise DistinctAnnoExpr := by
      simpa [List.append_assoc] using h
    rw [ih (acc ++ [t]) h2]
    simp

theorem addToOut_self_mem (s : List ConsumeTrigger) (t : ConsumeTrigger)
    (hp : s.Pairwise DistinctAnnoExpr) (ht : t ∈ s) : addToOut s t = s := by
  obtain ⟨l1, l2, rfl⟩ := List.append_of_mem ht
  exact addToOut_mem_first l2 t l1
    fun u hu => (List.pairwise_append.mp hp).2.2 u hu t (by simp)

theorem foldl_addToOut_const (s : List ConsumeTrigger) :
    ∀ l : List ConsumeTrigger, (∀ t ∈ l, addToOut s t = s) → l.foldl addToOut s = s := by
  intro l
  induction l with
  | nil => intro _; rfl
  | cons t l ih =>
    intro h
    rw [List.foldl_cons, h t (by simp)]
    exact ih fun u hu => h u (by simp [hu])

theorem addToOut_key_cases (t v : ConsumeTrigger) :
    ∀ out : List ConsumeTrigger, v ∈ addToOut out t →
      (v.Anno = t.Anno ∧ v.Expr = t.Expr) ∨ v ∈ out := by
  intro out
  induction out with
  | nil =>
    intro hv
    simp only [addToOut, List.mem_singleton] at hv
    exact Or.inl ⟨by rw [hv], by rw [hv]⟩
  | cons u rest ih =>
    intro hv
    by_cases h : u.Anno = t.Anno ∧ u.Expr = t.Expr
    · simp only [addToOut] at hv
      rw [if_pos h] at hv
      rcases List.mem_cons.mp hv with h1 | h1
      · subst h1; exact Or.inl ⟨h.1, h.2⟩
      · exact Or.inr (List.mem_cons_of_mem u h1)
    · simp only [addToOut] at hv
      rw [if_neg h] at hv
      rcases List.mem_cons.mp hv with h1 | h1
      · exact Or.inr (h1 ▸ List.mem_cons_self u rest)
      · rcases ih h1 with h2 | h2
        · exact Or.inl h2
        · exact Or.inr (List.mem_cons_of_mem u h2)

theorem addToOut_pairwise (t : ConsumeTrigger) :
    ∀ out : List ConsumeTrigger, out.Pairwise DistinctAnnoExpr →
      (addToOut out t).Pairwise DistinctAnnoExpr := by
  intro out
  induction out with
  | nil => intro _; simp [addToOut, DistinctAnnoExpr]
  | cons u rest ih =>
    intro h
    rcases List.pairwise_cons.mp h with ⟨hu, hrest⟩
    by_cases hc : u.Anno = t.Anno ∧ u.Expr = t.Expr
    · simp only [addToOut]
      rw [if_pos hc]
      exact List.pairwise_cons.mpr ⟨fun v hv hcon => hu v hv hcon, hrest⟩
    · simp only [addToOut]
      rw [if_neg hc]
      refine List.pairwise_cons.mpr ⟨?_, ih hrest⟩
      intro v hv
      rcases addToOut_key_cases t v rest hv with h2 | h2
      · exact fun hcon => hc ⟨hcon.1.trans h2.1, hcon.2.trans h2.2⟩
      · exact hu v h2

theorem foldl_addToOut_pairwise (l : List ConsumeTrigger) :
    ∀ acc : List ConsumeTrigger, acc.Pairwise DistinctAnnoExpr →
      (l.foldl addToOut acc).Pairwise DistinctAnnoExpr := by
  induction l with
  | nil => exact fun acc h => h
  | cons t l ih => exact fun acc h => ih _ (addToOut_pairwise t acc h)

/-- Claim C1: for every producer P and every annotation map m, the synthetic
producer GuardMissing wrapping P fires on m (CheckProduce returns true), and
its prestring is exactly the prestring of P followed by the text
" lacking guarding;" (hence it ends with " lacking guarding;"). -/
theorem guardMissing_fires_and_prestring (P : ProducingAnnotationTrigger) (m : Map) :
    (ProducingAnnotationTrigger.guardMissing P).CheckProduce m = true ∧
    (ProducingAnnotationTrigger.guardMissing P).Prestring =
      Option.map (fun s => s ++ " lacking guarding;") P.Prestring := by
  refine ⟨rfl, ?_⟩
  cases h : P.Prestring <;> simp [ProducingAnnotationTrigger.Prestring, h]

/-- Claim C2: in MergeConsumeTriggerSlices two consumer triggers are mergeable
exactly when their consumer annotation and their expr are equal, and the
merged trigger carries guards equal to the intersection of the two guard
sets and guardMatched equal to the conjunction of the two flags, with the
annotation and expr unchanged; non-mergeable triggers pass through. -/
theorem mergeConsumeTriggerSlices_pair (a b : ConsumeTrigger) :
    MergeConsumeTriggerSlices [a] [b] =
      if a.Anno = b.Anno ∧ a.Expr = b.Expr then
        [{ Anno := a.Anno, Expr := a.Expr,
           Guards := a.Guards.Intersection b.Guards,
           GuardMatched := a.GuardMatched && b.GuardMatched }]
      else [a, b] := by
  by_cases h : a.Anno = b.Anno ∧ a.Expr = b.Expr
  · rw [if_pos h]
    show addToOut (addToOut [] a) b = _
    rw [show addToOut [] a = [a] from rfl]
    simp only [addToOut]
    rw [if_pos h]
  · rw [if_neg h]
    show addToOut (addToOut [] a) b = _
    rw [show addToOut [] a = [a] from rfl]
    simp only [addToOut]
    rw [if_neg h]

/-- Claim C3 counterexample: a MapRead constructed without explicitly setting
its guard flag (the Go zero value, false) reports NeedsGuardMatch = false,
refuting the claim that the flag defaults to true. -/
theorem mapRead_zero_value_not_guarded :
    ¬ ((MapReadZeroValue (Key.typeNameKey ⟨0, "T"⟩)).NeedsGuardMatch = true) := by
  decide

/-- Claim C3 amended: NeedsGuardMatch of a MapRead returns exactly the stored
NeedsGuard flag; the source documents that MapRead must always be
instantiated with NeedsGuard = true, but the Go zero value of the unset
field is false. -/
theorem mapRead_needsGuardMatch_reads_field (ann : Key) (b : Bool) :
    (ProducingAnnotationTrigger.mapRead ann b).NeedsGuardMatch = b := rfl

/-- Claim C4: for every producer P and map m, if the kind of P is Always then
P fires on m, and if its kind is Never then P does not fire on m; for every
consumer C of kind Always, C fires on every map. -/
theorem kind_always_never_fires (P : ProducingAnnotationTrigger)
    (C : ConsumingAnnotationTrigger) (m : Map) :
    (P.Kind = TriggerKind.Always → P.CheckProduce m = true) ∧
    (P.Kind = TriggerKind.Never → P.CheckProduce m = false) ∧
    (C.Kind = TriggerKind.Always → C.CheckConsume m = true) := by
  refine ⟨fun h => ?_, fun h => ?_, fun h => ?_⟩
  · cases hb : P.base <;>
      simp_all [ProducingAnnotationTrigger.Kind, ProducingAnnotationTrigger.CheckProduce]
  · cases hb : P.base <;>
      simp_all [ProducingAnnotationTrigger.Kind, ProducingAnnotationTrigger.CheckProduce]
  · cases hb : C.base <;>
      simp_all [ConsumingAnnotationTrigger.Kind, ConsumingAnnotationTrigger.CheckConsume]

theorem kind_always_never_fires_witness :
    ProducingAnnotationTrigger.constNil.CheckProduce (fun _ => none) = true ∧
    ProducingAnnotationTrigger.rangeOver.CheckProduce (fun _ => none) = false ∧
    ConsumingAnnotationTrigger.ptrLoad.CheckConsume (fun _ => none) = true :=
  ⟨(kind_always_never_fires .constNil .ptrLoad (fun _ => none)).1 rfl,
   (kind_always_never_fires .rangeOver .ptrLoad (fun _ => none)).2.1 rfl,
   (kind_always_never_fires .constNil .ptrLoad (fun _ => none)).2.2 rfl⟩

/-- Claim C5: every element of ConsumeTriggerSliceAsGuarded(s, g) has the same
annotation and expr as the corresponding input element, a guard set equal to
a copy of the input guard set extended with all nonces of g (hence a
superset of g), and guardMatched equal to false on every output element. -/
theorem consumeTriggerSliceAsGuarded_spec (s : List ConsumeTrigger) (g : List GuardNonce) :
    (ConsumeTriggerSliceAsGuarded s g).length = s.length ∧
    ∀ i (hi : i < s.length) (ho : i < (ConsumeTriggerSliceAsGuarded s g).length),
      ((ConsumeTriggerSliceAsGuarded s g).get ⟨i, ho⟩).Anno = (s.get ⟨i, hi⟩).Anno ∧
      ((ConsumeTriggerSliceAsGuarded s g).get ⟨i, ho⟩).Expr = (s.get ⟨i, hi⟩).Expr ∧
      ((ConsumeTriggerSliceAsGuarded s g).get ⟨i, ho⟩).Guards =
        (s.get ⟨i, hi⟩).Guards.Copy.Add g ∧
      g.toFinset ⊆ ((ConsumeTriggerSliceAsGuarded s g).get ⟨i, ho⟩).Guards ∧
      ((ConsumeTriggerSliceAsGuarded s g).get ⟨i, ho⟩).GuardMatched = false := by
  refine ⟨by simp [ConsumeTriggerSliceAsGuarded], ?_⟩
  intro i hi ho
  simp only [ConsumeTriggerSliceAsGuarded, List.get_eq_getElem, List.getElem_map]
  refine ⟨trivial, trivial, trivial, ?_, trivial⟩
  simp [GuardNonceSet.Copy, GuardNonceSet.Add]

theorem consumeTriggerSliceAsGuarded_spec_witness :
    ((ConsumeTriggerSliceAsGuarded [⟨ConsumingAnnotationTrigger.ptrLoad, 0, ∅, true⟩] [7]).get
      ⟨0, by decide⟩).GuardMatched = false :=
  ((consumeTriggerSliceAsGuarded_spec [⟨ConsumingAnnotationTrigger.ptrLoad, 0, ∅, true⟩] [7]).2
    0 (by decide) (by decide)).2.2.2.2

/-- Claim C6: if the variant of P supports guard mutation (MapRead, ChanRecv,
FuncParamDeep, VariadicFuncParamDeep, FuncReturnDeep, FldReadDeep,
LocalVarReadDeep, GlobalVarReadDeep, FuncReturn) then
SetNeedsGuard(b) followed by NeedsGuardMatch returns b; on every other
variant SetNeedsGuard returns the trigger unchanged. -/
theorem setNeedsGuard_spec (P : ProducingAnnotationTrigger) (b : Bool) :
    (SupportsGuardMutation P = true → (P.SetNeedsGuard b).NeedsGuardMatch = b) ∧
    (SupportsGuardMutation P = false → P.SetNeedsGuard b = P) := by
  cases P <;>
    simp [SupportsGuardMutation, ProducingAnnotationTrigger.SetNeedsGuard,
      ProducingAnnotationTrigger.NeedsGuardMatch]

theorem setNeedsGuard_spec_witness :
    ((ProducingAnnotationTrigger.mapRead (Key.typeNameKey ⟨0, "T"⟩) false).SetNeedsGuard
      true).NeedsGuardMatch = true ∧
    ProducingAnnotationTrigger.constNil.SetNeedsGuard true = ProducingAnnotationTrigger.constNil :=
  ⟨(setNeedsGuard_spec (ProducingAnnotationTrigger.mapRead (Key.typeNameKey ⟨0, "T"⟩) false)
      true).1 rfl,
   (setNeedsGuard_spec ProducingAnnotationTrigger.constNil true).2 rfl⟩

/-- Claim C7 counterexample: for a slice containing two triggers that share
the annotation and expr but differ in guard sets, MergeConsumeTriggerSlices
of the slice with itself collapses them into one trigger, so the result is
not a permutation of the input (the lengths differ). -/
theorem merge_self_not_perm_with_shared_key :
    ¬ List.Perm
      (MergeConsumeTriggerSlices
        [⟨ConsumingAnnotationTrigger.ptrLoad, 0, {1}, true⟩,
         ⟨ConsumingAnnotationTrigger.ptrLoad, 0, {2}, true⟩]
        [⟨ConsumingAnnotationTrigger.ptrLoad, 0, {1}, true⟩,
         ⟨ConsumingAnnotationTrigger.ptrLoad, 0, {2}, true⟩])
      [⟨ConsumingAnnotationTrigger.ptrLoad, 0, {1}, true⟩,
       ⟨ConsumingAnnotationTrigger.ptrLoad, 0, {2}, true⟩] := by
  intro h
  have hl := h.length_eq
  have hm : (MergeConsumeTriggerSlices
      [⟨ConsumingAnnotationTrigger.ptrLoad, 0, {1}, true⟩,
       ⟨ConsumingAnnotationTrigger.ptrLoad, 0, {2}, true⟩]
      [⟨ConsumingAnnotationTrigger.ptrLoad, 0, {1}, true⟩,
       ⟨ConsumingAnnotationTrigger.ptrLoad, 0, {2}, true⟩]).length = 1 := rfl
  rw [hm] at hl
  simp at hl

/-- Claim C7 amended: CFG-join idempotence holds for slices in which no two
elements share both the annotation and the expr: merging such a slice with
itself returns the slice itself (in particular, equal up to reordering). -/
theorem merge_self_perm (s : List ConsumeTrigger) (h : s.Pairwise DistinctAnnoExpr) :
    List.Perm (MergeConsumeTriggerSlices s s) s := by
  have h1 : s.foldl addToOut [] = s := by
    simpa using foldl_addToOut_append s [] (by simpa using h)
  have h2 : MergeConsumeTriggerSlices s s = s := by
    rw [MergeConsumeTriggerSlices, List.foldl_append, h1]
    exact foldl_addToOut_const s s fun t ht => addToOut_self_mem s t h ht
  rw [h2]

theorem merge_self_perm_witness :
    List.Perm
      (MergeConsumeTriggerSlices [⟨ConsumingAnnotationTrigger.ptrLoad, 0, ∅, false⟩]
        [⟨ConsumingAnnotationTrigger.ptrLoad, 0, ∅, false⟩])
      [⟨ConsumingAnnotationTrigger.ptrLoad, 0, ∅, false⟩] :=
  merge_self_perm [⟨ConsumingAnnotationTrigger.ptrLoad, 0, ∅, false⟩] (by simp)

/-- Claim C8: fires never fails and returns false on absent keys: for every
conditional or deep-conditional producer or consumer trigger (those with an
underlying site) and every annotation map in which the underlying site key
has no entry, CheckProduce and CheckConsume return false. -/
theorem fires_false_on_absent_key (P : ProducingAnnotationTrigger)
    (C : ConsumingAnnotationTrigger) (m : Map) (k k2 : Key)
    (hP : P.UnderlyingSite = some k) (hmk : k.Lookup m = none)
    (hC : C.UnderlyingSite = some k2) (hmk2 : k2.Lookup m = none) :
    P.CheckProduce m = false ∧ C.CheckConsume m = false := by
  constructor
  · cases hb : P.base <;>
      simp_all [ProducingAnnotationTrigger.UnderlyingSite, ProducingAnnotationTrigger.CheckProduce,
        checkIfNilable, checkIfDeepNilable]
  · cases hb : C.base <;>
      simp_all [ConsumingAnnotationTrigger.UnderlyingSite, ConsumingAnnotationTrigger.CheckConsume,
        checkIfNonNil, checkIfDeepNonNil]

theorem fires_false_on_absent_key_witness :
    (ProducingAnnotationTrigger.funcParam (Key.recvKey ⟨0, "f"⟩)).CheckProduce (fun _ => none) =
      false ∧
    (ConsumingAnnotationTrigger.fldAssign (Key.recvKey ⟨0, "f"⟩)).CheckConsume (fun _ => none) =
      false :=
  fires_false_on_absent_key (ProducingAnnotationTrigger.funcParam (Key.recvKey ⟨0, "f"⟩))
    (ConsumingAnnotationTrigger.fldAssign (Key.recvKey ⟨0, "f"⟩)) (fun _ => none)
    (Key.recvKey ⟨0, "f"⟩) (Key.recvKey ⟨0, "f"⟩) rfl rfl rfl rfl

/-- Claim C9: under the precondition that no input slice contains two
elements related by ConsumeTrigger.Eq, ConsumeTriggerSlicesEq is reflexive,
symmetric, and transitive. -/
theorem consumeTriggerSlicesEq_equivalence (a b c : List ConsumeTrigger)
    (ha : a.Pairwise fun x y => x.Eq y = false)
    (hb : b.Pairwise fun x y => x.Eq y = false)
    (_hc : c.Pairwise fun x y => x.Eq y = false) :
    ConsumeTriggerSlicesEq a a = true ∧
    (ConsumeTriggerSlicesEq a b = true → ConsumeTriggerSlicesEq b a = true) ∧
    (ConsumeTriggerSlicesEq a b = true → ConsumeTriggerSlicesEq b c = true →
      ConsumeTriggerSlicesEq a c = true) := by
  have ha2 := (pairwise_eqFalse_iff_nodup a).mp ha
  have hb2 := (pairwise_eqFalse_iff_nodup b).mp hb
  refine ⟨(slicesEq_iff_perm a a ha2).mpr (List.Perm.refl a), fun h => ?_, fun h1 h2 => ?_⟩
  · exact (slicesEq_iff_perm b a hb2).mpr ((slicesEq_iff_perm a b ha2).mp h).symm
  · exact (slicesEq_iff_perm a c ha2).mpr
      (((slicesEq_iff_perm a b ha2).mp h1).trans ((slicesEq_iff_perm b c hb2).mp h2))

theorem consumeTriggerSlicesEq_equivalence_witness :
    ConsumeTriggerSlicesEq [⟨ConsumingAnnotationTrigger.ptrLoad, 0, ∅, false⟩]
      [⟨ConsumingAnnotationTrigger.ptrLoad, 0, ∅, false⟩] = true :=
  (consumeTriggerSlicesEq_equivalence [⟨ConsumingAnnotationTrigger.ptrLoad, 0, ∅, false⟩]
    [⟨ConsumingAnnotationTrigger.ptrLoad, 0, ∅, false⟩]
    [⟨ConsumingAnnotationTrigger.ptrLoad, 0, ∅, false⟩] (by simp) (by simp) (by simp)).1

/-- Claim C10: the output of MergeConsumeTriggerSlices never contains two
distinct triggers with equal annotation and equal expr; mergeable duplicates
inside a single input slice are also collapsed into one trigger, by
intersecting their guard sets and conjoining their guardMatched flags in
left-to-right order. -/
theorem merge_output_no_duplicate_keys (left right : List ConsumeTrigger)
    (a b : ConsumeTrigger) (hAnno : a.Anno = b.Anno) (hExpr : a.Expr = b.Expr) :
    (MergeConsumeTriggerSlices left right).Pairwise DistinctAnnoExpr ∧
    MergeConsumeTriggerSlices [a, b] [] =
      [{ Anno := a.Anno, Expr := a.Expr,
         Guards := a.Guards.Intersection b.Guards,
         GuardMatched := a.GuardMatched && b.GuardMatched }] := by
  constructor
  · exact foldl_addToOut_pairwise (left ++ right) [] List.Pairwise.nil
  · show addToOut (addToOut [] a) b = _
    rw [show addToOut [] a = [a] from rfl]
    simp only [addToOut]
    rw [if_pos ⟨hAnno, hExpr⟩]

theorem merge_output_no_duplicate_keys_witness :
    MergeConsumeTriggerSlices
      [⟨ConsumingAnnotationTrigger.ptrLoad, 0, {1}, true⟩,
       ⟨ConsumingAnnotationTrigger.ptrLoad, 0, {2}, false⟩] [] =
      [⟨ConsumingAnnotationTrigger.ptrLoad, 0,
        GuardNonceSet.Intersection {1} {2}, true && false⟩] :=
  (merge_output_no_duplicate_keys [] []
    ⟨ConsumingAnnotationTrigger.ptrLoad, 0, {1}, true⟩
    ⟨ConsumingAnnotationTrigger.ptrLoad, 0, {2}, false⟩ rfl rfl).2
